import Mathlib

/-!
Verification of the OpenSea web3 EVM provider / wallet layer.

The development shallowly embeds the TypeScript sources:
  * `Web3EvmProvider` (signature reordering, typed-data signing dispatch,
    chain switching, account mapping, transact) from
    `lib/chain/providers/web3EvmProvider.ts`;
  * `Wallet` (account registry, active account, session persistence,
    provider install with rollback) from `lib/chain/wallet.ts`.

Collaborators of the wallet that live outside the provided sources
(`OrderedSet`, `Cookie`, the chain-provider registry, the chain-identifier
constants) are modelled from the specification, and each such definition is
marked `Modelled from the spec:` in its doc comment.

JavaScript strings are modelled as Lean `String`s, JavaScript numbers that
hold integral values as `Nat`/`Int`, thrown exceptions as `Except`, and
asynchronous calls as explicit arguments supplying each backend response.
-/

/-! ## JavaScript string and number helpers -/

/-- Numeric value of one hexadecimal digit, `none` for a non-hex character. -/
def hexDigitVal (c : Char) : Option Nat :=
  if '0' ≤ c ∧ c ≤ '9' then some (c.toNat - '0'.toNat)
  else if 'a' ≤ c ∧ c ≤ 'f' then some (c.toNat - 'a'.toNat + 10)
  else if 'A' ≤ c ∧ c ≤ 'F' then some (c.toNat - 'A'.toNat + 10)
  else none

/-- Longest-hex-digit-prefix parse of a character list, accumulator form. -/
def parseHexAux : List Char → Nat → Nat
  | [], acc => acc
  | c :: cs, acc =>
    match hexDigitVal c with
    | some d => parseHexAux cs (acc * 16 + d)
    | none => acc

/-- Embedding of JavaScript `parseInt(s, 16)` for inputs without leading
whitespace or sign: parses the longest hexadecimal-digit prefix of `s`;
`none` models the `NaN` result produced when no digit can be parsed. -/
def jsParseInt16 (s : String) : Option Nat :=
  match s.data with
  | [] => none
  | c :: cs =>
    match hexDigitVal c with
    | some d => some (parseHexAux cs d)
    | none => none

/-- Embedding of JavaScript `Number.prototype.toString(16)` on a natural
number: lowercase hexadecimal digits. -/
def jsToString16 (n : Nat) : String := ⟨Nat.toDigits 16 n⟩

/-- Embedding of JavaScript `String.prototype.substr(start, len)` for a
non-negative `start`. -/
def jsSubstr (s : String) (start len : Nat) : String :=
  ⟨(s.data.drop start).take len⟩

/-- ASCII lower-casing of one character, as JavaScript
`String.prototype.toLowerCase` acts on the ASCII range of an address. -/
def jsCharToLower (c : Char) : Char :=
  if 'A' ≤ c ∧ c ≤ 'Z' then Char.ofNat (c.toNat + 32) else c

/-- Embedding of JavaScript `String.prototype.toLowerCase` on ASCII
strings. -/
def jsToLowerCase (s : String) : String := ⟨s.data.map jsCharToLower⟩

/-- A character is a hexadecimal digit. -/
def isHexChar (c : Char) : Bool := (hexDigitVal c).isSome

/-- Every character of the string is a hexadecimal digit. -/
def isHexString (s : String) : Bool := s.data.all isHexChar

/-! ## Web3EvmProvider: signature reordering

Embedding of `Web3EvmProvider._reorderSignatureRsvToVrs`
(`web3EvmProvider.ts`, lines 212-229).  The JavaScript code throws on a
length other than 132, reads `v` from the last two characters with
`parseInt(-, 16)`, adds 27 when `v < 27` (`NaN < 27` is false, so a `NaN`
parse result is re-emitted as the string `"NaN"`, exactly as
`NaN.toString(16)` produces), and re-emits `0x`, `v`, `r = substr(2, 64)`,
`s = substr(66, 64)`. -/

namespace Web3EvmProvider

def _reorderSignatureRsvToVrs (signature : String) : Except String String :=
  if signature.length ≠ 132 then
    .error "Expect signature to be a hex thing with a total length of 132 characters (including the '0x' prefix)"
  else
    let r := jsSubstr signature 2 64
    let s := jsSubstr signature 66 64
    let v :=
      match jsParseInt16 (jsSubstr signature 130 2) with
      | some n => jsToString16 (if n < 27 then n + 27 else n)
      | none => "NaN"
    .ok ("0x" ++ v ++ r ++ s)

end Web3EvmProvider

/-! ## Theorems: C1, C2 -/

/-- Facts about the character data of a well-formed `0x<r><s><v>` input. -/
theorem reorder_data_split (r s v : String) (hr : r.length = 64)
    (hs : s.length = 64) (hv : v.length = 2) :
    let sig := "0x" ++ r ++ s ++ v
    sig.length = 132 ∧ jsSubstr sig 2 64 = r ∧ jsSubstr sig 66 64 = s ∧
      jsSubstr sig 130 2 = v := by
  have hdata : ("0x" ++ r ++ s ++ v).data =
      ('0' :: 'x' :: r.data) ++ (s.data ++ v.data) := by
    simp [String.data_append]
  have hrlen : r.data.length = 64 := hr
  have hslen : s.data.length = 64 := hs
  have hvlen : v.data.length = 2 := hv
  refine ⟨?_, ?_, ?_, ?_⟩
  · show ("0x" ++ r ++ s ++ v).data.length = 132
    rw [hdata]
    simp [hrlen, hslen, hvlen]
  · show (⟨(("0x" ++ r ++ s ++ v).data.drop 2).take 64⟩ : String) = r
    rw [hdata]
    have : (('0' :: 'x' :: r.data) ++ (s.data ++ v.data)).drop 2 =
        r.data ++ (s.data ++ v.data) := by simp
    rw [this, List.take_left' hrlen]
  · show (⟨(("0x" ++ r ++ s ++ v).data.drop 66).take 64⟩ : String) = s
    rw [hdata]
    have h2 : (('0' :: 'x' :: r.data) ++ (s.data ++ v.data)).drop 66 =
        (r.data ++ (s.data ++ v.data)).drop 64 := by simp
    rw [h2, List.drop_left' hrlen, List.take_left' hslen]
  · show (⟨(("0x" ++ r ++ s ++ v).data.drop 130).take 2⟩ : String) = v
    rw [hdata]
    have h2 : (('0' :: 'x' :: r.data) ++ (s.data ++ v.data)).drop 130 =
        (r.data ++ (s.data ++ v.data)).drop 128 := by simp
    have h3 : (r.data ++ (s.data ++ v.data)).drop 128 =
        (s.data ++ v.data).drop 64 := by
      rw [List.drop_append_eq_append_drop]
      simp [hrlen]
    rw [h2, h3, List.drop_left' hslen]
    rw [show List.take 2 v.data = v.data from by rw [← hvlen, List.take_length]]

/-- C1: on a 132-character hex signature `0x<64 r><64 s><2 v>` the reorder
step returns `0x<v'><r><s>`, where `v'` is `"1b"` when `v` is `"1b"` or
`"00"`, and `"1c"` when `v` is `"1c"` or `"01"`. -/
theorem reorderSignature_rsv_to_vrs (r s v v' : String)
    (hr : r.length = 64) (hs : s.length = 64)
    (hhr : isHexString r = true) (hhs : isHexString s = true)
    (hcase : ((v = "1b" ∨ v = "00") ∧ v' = "1b") ∨
             ((v = "1c" ∨ v = "01") ∧ v' = "1c")) :
    Web3EvmProvider._reorderSignatureRsvToVrs ("0x" ++ r ++ s ++ v) =
      .ok ("0x" ++ v' ++ r ++ s) := by
  have hv2 : v.length = 2 := by
    rcases hcase with ⟨hv, _⟩ | ⟨hv, _⟩ <;> rcases hv with hv | hv <;>
      subst hv <;> rfl
  obtain ⟨hlen, hsub1, hsub2, hsub3⟩ := reorder_data_split r s v hr hs hv2
  unfold Web3EvmProvider._reorderSignatureRsvToVrs
  rw [if_neg (by rw [hlen]; exact fun h => h rfl)]
  rw [hsub1, hsub2, hsub3]
  rcases hcase with ⟨hv, hv'⟩ | ⟨hv, hv'⟩ <;> rcases hv with hv | hv <;>
    subst hv <;> subst hv' <;> rfl

/-- Witness for C1: a concrete signature with `v = "00"` reorders to
`v' = "1b"` in front. -/
theorem reorderSignature_rsv_to_vrs_witness :
    Web3EvmProvider._reorderSignatureRsvToVrs
        ("0x" ++ ⟨List.replicate 64 'a'⟩ ++ ⟨List.replicate 64 '2'⟩ ++ "00") =
      .ok ("0x" ++ "1b" ++ ⟨List.replicate 64 'a'⟩ ++ ⟨List.replicate 64 '2'⟩) :=
  reorderSignature_rsv_to_vrs ⟨List.replicate 64 'a'⟩ ⟨List.replicate 64 '2'⟩
    "00" "1b" (by decide) (by decide) (by decide) (by decide)
    (Or.inl ⟨Or.inr rfl, rfl⟩)

/-- C2: any input whose length is not exactly 132 characters makes the
reorder step throw the malformed-signature-length error. -/
theorem reorderSignature_malformed_length (s : String)
    (h : s.length ≠ 132) :
    Web3EvmProvider._reorderSignatureRsvToVrs s =
      .error "Expect signature to be a hex thing with a total length of 132 characters (including the '0x' prefix)" := by
  unfold Web3EvmProvider._reorderSignatureRsvToVrs
  rw [if_pos h]

set_option maxRecDepth 4000 in
/-- Witness for C2: both boundary lengths 131 and 133 are rejected. -/
theorem reorderSignature_malformed_length_witness :
    Web3EvmProvider._reorderSignatureRsvToVrs ⟨List.replicate 131 '0'⟩ =
      .error "Expect signature to be a hex thing with a total length of 132 characters (including the '0x' prefix)" ∧
    Web3EvmProvider._reorderSignatureRsvToVrs ⟨List.replicate 133 '0'⟩ =
      .error "Expect signature to be a hex thing with a total length of 132 characters (including the '0x' prefix)" :=
  ⟨reorderSignature_malformed_length ⟨List.replicate 131 '0'⟩ (by decide),
   reorderSignature_malformed_length ⟨List.replicate 133 '0'⟩ (by decide)⟩

/-! ## Web3EvmProvider: typed-data signing dispatch

Embedding of `Web3EvmProvider.signTypedData` (`web3EvmProvider.ts`, lines
162-190).  The backend is modelled as a function from the RPC method to the
signature string it returns; the second component of the result is the list
of RPC requests the call issued, in order. -/

/-- The `Method` union type of `web3EvmProvider.ts` (lines 15-23). -/
inductive Method where
  | eth_requestAccounts
  | personal_sign
  | eth_signTypedData
  | eth_signTypedData_v1
  | eth_signTypedData_v3
  | eth_signTypedData_v4
  | wallet_addEthereumChain
  | wallet_switchEthereumChain
deriving DecidableEq, Repr

/-- The `ClientSignatureStandard` GraphQL enum (generated type), with the
`"%future added value"` placeholder as `FUTURE_ADDED_VALUE`. -/
inductive ClientSignatureStandard where
  | PERSONAL
  | TYPED_DATA_V1
  | TYPED_DATA_V3
  | TYPED_DATA_V4
  | FUTURE_ADDED_VALUE
deriving DecidableEq, Repr

/-- The `SignOptions` interface of `wallet.ts` (lines 54-56). -/
structure SignOptions where
  clientSignatureStandard : ClientSignatureStandard
deriving DecidableEq, Repr

namespace Web3EvmProvider

/-- The `typedStandards` list of `signTypedData` (line 166). -/
def typedStandards : List ClientSignatureStandard :=
  [.TYPED_DATA_V1, .TYPED_DATA_V3, .TYPED_DATA_V4]

/-- The `signatureToMethod` record of `signTypedData` (lines 174-180). -/
def signatureToMethod : ClientSignatureStandard → Method
  | .PERSONAL => .personal_sign
  | .TYPED_DATA_V1 => .eth_signTypedData
  | .TYPED_DATA_V3 => .eth_signTypedData_v3
  | .TYPED_DATA_V4 => .eth_signTypedData_v4
  | .FUTURE_ADDED_VALUE => .personal_sign

/-- Embedding of `Web3EvmProvider.signTypedData`: resolve the standard
(defaulting to `TYPED_DATA_V4`), throw "unsupported standard" before any
request unless it is one of the three typed standards, otherwise issue one
request on the mapped method and reorder the backend's signature.  Returns
the call's result together with the list of requests issued. -/
def signTypedData (options : Option SignOptions) (backend : Method → String) :
    Except String String × List Method :=
  let clientSignatureStandard :=
    (options.map (·.clientSignatureStandard)).getD .TYPED_DATA_V4
  if typedStandards.contains clientSignatureStandard then
    let m := signatureToMethod clientSignatureStandard
    let signature := backend m
    (_reorderSignatureRsvToVrs signature, [m])
  else
    (.error "Unsupported client signature standard for signing typed data.", [])

end Web3EvmProvider

/-! ## Theorems: C3 -/

/-- A fixed well-formed 132-character backend signature used in concrete
counterexamples and witnesses. -/
def sampleSignature : String :=
  "0x" ++ ⟨List.replicate 64 '1'⟩ ++ ⟨List.replicate 64 '2'⟩ ++ "1b"

set_option maxRecDepth 4000 in
/-- C3 counterexample: with the `PERSONAL` standard, `signTypedData` does
not forward to `personal_sign` — it throws the unsupported-standard error
having issued no request at all, even though the backend would have
answered with a well-formed signature. -/
theorem signTypedData_personal_rejected :
    Web3EvmProvider.signTypedData (some ⟨.PERSONAL⟩) (fun _ => sampleSignature) =
      (.error "Unsupported client signature standard for signing typed data.",
        []) := by
  rfl

/-- C3 amended: a typed-data standard (v1/v3/v4), explicit or defaulted,
forwards to its distinct backend RPC method (`eth_signTypedData`,
`eth_signTypedData_v3`, `eth_signTypedData_v4` respectively) and returns
the backend signature reordered with no suffix; `PERSONAL` and the future
placeholder throw the fatal unsupported-standard error before issuing any
request. -/
theorem signTypedData_dispatch (backend : Method → String) :
    (Web3EvmProvider.signTypedData (some ⟨.TYPED_DATA_V1⟩) backend =
      (Web3EvmProvider._reorderSignatureRsvToVrs
        (backend .eth_signTypedData), [.eth_signTypedData])) ∧
    (Web3EvmProvider.signTypedData (some ⟨.TYPED_DATA_V3⟩) backend =
      (Web3EvmProvider._reorderSignatureRsvToVrs
        (backend .eth_signTypedData_v3), [.eth_signTypedData_v3])) ∧
    (Web3EvmProvider.signTypedData (some ⟨.TYPED_DATA_V4⟩) backend =
      (Web3EvmProvider._reorderSignatureRsvToVrs
        (backend .eth_signTypedData_v4), [.eth_signTypedData_v4])) ∧
    (Web3EvmProvider.signTypedData none backend =
      (Web3EvmProvider._reorderSignatureRsvToVrs
        (backend .eth_signTypedData_v4), [.eth_signTypedData_v4])) ∧
    (Web3EvmProvider.signTypedData (some ⟨.PERSONAL⟩) backend =
      (.error "Unsupported client signature standard for signing typed data.",
        [])) ∧
    (Web3EvmProvider.signTypedData (some ⟨.FUTURE_ADDED_VALUE⟩) backend =
      (.error "Unsupported client signature standard for signing typed data.",
        [])) :=
  ⟨rfl, rfl, rfl, rfl, rfl, rfl⟩

/-! ## Web3EvmProvider: chain switching

Embedding of `Web3EvmProvider.switchChain` (`web3EvmProvider.ts`, lines
231-270).  The backend's answers to the switch and add requests are given
as `Except` values whose error carries the JSON-RPC error `code`; the
second component of the result is the list of requests issued, in order. -/

/-- The fields produced by `readChainData` (`lib/chain/chain`, outside the
provided sources).  Modelled from the spec: chain metadata carries the rpc
url, display name, native currency, explorer url, and an optional network
id ("the target chain's resolved network id must be resolvable from chain
metadata"). -/
structure ChainData where
  blockExplorerUrl : String
  displayName : String
  publicRpcUrl : String
  networkId : Option Nat
  nativeCurrency : String
deriving DecidableEq, Repr

/-- One JSON-RPC request issued by `switchChain`, with the parameters the
code passes. -/
inductive ChainRpcRequest where
  | switchEthereumChain (chainId : String)
  | addEthereumChain (chainId : String) (rpcUrls : List String)
      (chainName : String) (nativeCurrency : String)
      (blockExplorerUrls : List String)
deriving DecidableEq, Repr

/-- The backend's responses to the two chain requests; an error carries the
JSON-RPC error code (`switchError.code` / the add failure). -/
structure ChainBackend where
  switchResult : Except Int Unit
  addResult : Except Int Unit
deriving Repr

namespace Web3EvmProvider

/-- `USER_REJECTED_REQUEST_ERROR_CODE` (line 33). -/
def USER_REJECTED_REQUEST_ERROR_CODE : Int := 4001

/-- `UNADDED_CHAIN_ERROR_CODE` (line 34). -/
def UNADDED_CHAIN_ERROR_CODE : Int := 4902

/-- Embedding of `web3.toHex` on a network id. -/
def toHex (n : Nat) : String := "0x" ++ jsToString16 n

/-- Embedding of `Web3EvmProvider.switchChain`: fail before any request if
the network id is missing, then issue the switch request; on the
unadded-chain code issue one add request (success resolves, failure throws
the problem-adding error); on the user-rejected code resolve silently; on
any other error code throw the problem-switching error. -/
def switchChain (backend : ChainBackend) (chainData : ChainData) :
    Except String Unit × List ChainRpcRequest :=
  match chainData.networkId with
  | none => (.error "Chain network ID was not found", [])
  | some networkId =>
    let chainId := toHex networkId
    match backend.switchResult with
    | .ok _ => (.ok (), [.switchEthereumChain chainId])
    | .error code =>
      if code = UNADDED_CHAIN_ERROR_CODE then
        let addReq := ChainRpcRequest.addEthereumChain chainId
          [chainData.publicRpcUrl] chainData.displayName
          chainData.nativeCurrency [chainData.blockExplorerUrl]
        match backend.addResult with
        | .ok _ => (.ok (), [.switchEthereumChain chainId, addReq])
        | .error _ =>
          (.error "There was a problem adding the network",
            [.switchEthereumChain chainId, addReq])
      else if code = USER_REJECTED_REQUEST_ERROR_CODE then
        (.ok (), [.switchEthereumChain chainId])
      else
        (.error "There was a problem switching the network",
          [.switchEthereumChain chainId])

end Web3EvmProvider

/-! ## Theorems: C6, C7 -/

/-- C6: when the backend answers the switch request with code 4902, exactly
one add-chain request carrying the chain id, rpc url, display name, native
currency and explorer url is issued and no second switch request follows;
the call resolves when the add request succeeds and throws the
problem-adding error when it fails. -/
theorem switchChain_unadded_chain (backend : ChainBackend)
    (chainData : ChainData) (networkId : Nat) (code : Int)
    (hnid : chainData.networkId = some networkId)
    (hsw : backend.switchResult = .error code)
    (hcode : code = 4902) :
    (Web3EvmProvider.switchChain backend chainData).2 =
      [.switchEthereumChain (Web3EvmProvider.toHex networkId),
       .addEthereumChain (Web3EvmProvider.toHex networkId)
         [chainData.publicRpcUrl] chainData.displayName
         chainData.nativeCurrency [chainData.blockExplorerUrl]] ∧
    (backend.addResult = .ok () →
      (Web3EvmProvider.switchChain backend chainData).1 = .ok ()) ∧
    (∀ c : Int, backend.addResult = .error c →
      (Web3EvmProvider.switchChain backend chainData).1 =
        .error "There was a problem adding the network") := by
  subst hcode
  refine ⟨?_, ?_, ?_⟩
  · cases h : backend.addResult <;>
      simp [Web3EvmProvider.switchChain, hnid, hsw, h,
        Web3EvmProvider.UNADDED_CHAIN_ERROR_CODE]
  · intro h
    simp [Web3EvmProvider.switchChain, hnid, hsw, h,
      Web3EvmProvider.UNADDED_CHAIN_ERROR_CODE]
  · intro c h
    simp [Web3EvmProvider.switchChain, hnid, hsw, h,
      Web3EvmProvider.UNADDED_CHAIN_ERROR_CODE]

/-- Witness for C6: a concrete backend rejecting the switch with 4902 and
accepting the add request resolves after issuing exactly the switch and add
requests. -/
theorem switchChain_unadded_chain_witness :
    (Web3EvmProvider.switchChain ⟨.error 4902, .ok ()⟩
        ⟨"https://scan", "Polygon", "https://rpc", some 137, "MATIC"⟩).2 =
      [.switchEthereumChain (Web3EvmProvider.toHex 137),
       .addEthereumChain (Web3EvmProvider.toHex 137) ["https://rpc"]
         "Polygon" "MATIC" ["https://scan"]] ∧
    (Web3EvmProvider.switchChain ⟨.error 4902, .ok ()⟩
        ⟨"https://scan", "Polygon", "https://rpc", some 137, "MATIC"⟩).1 =
      .ok () := by
  have h := switchChain_unadded_chain ⟨.error 4902, .ok ()⟩
    ⟨"https://scan", "Polygon", "https://rpc", some 137, "MATIC"⟩ 137 4902
    rfl rfl rfl
  exact ⟨h.1, h.2.1 rfl⟩

/-- C7: when the backend answers the switch request with code 4001 the call
resolves normally with no further request issued; any other error code
besides the two distinguished ones (4001 user-rejected, 4902 unadded-chain,
the latter settled by the add-chain path) throws the problem-switching
error after the single switch request. -/
theorem switchChain_user_rejected (backend : ChainBackend)
    (chainData : ChainData) (networkId : Nat) (code : Int)
    (hnid : chainData.networkId = some networkId)
    (hsw : backend.switchResult = .error code) :
    (code = 4001 →
      Web3EvmProvider.switchChain backend chainData =
        (.ok (), [.switchEthereumChain (Web3EvmProvider.toHex networkId)])) ∧
    (code ≠ 4001 → code ≠ 4902 →
      Web3EvmProvider.switchChain backend chainData =
        (.error "There was a problem switching the network",
          [.switchEthereumChain (Web3EvmProvider.toHex networkId)])) := by
  constructor
  · intro h
    subst h
    simp [Web3EvmProvider.switchChain, hnid, hsw,
      Web3EvmProvider.UNADDED_CHAIN_ERROR_CODE,
      Web3EvmProvider.USER_REJECTED_REQUEST_ERROR_CODE]
  · intro h1 h2
    simp [Web3EvmProvider.switchChain, hnid, hsw, h1, h2,
      Web3EvmProvider.UNADDED_CHAIN_ERROR_CODE,
      Web3EvmProvider.USER_REJECTED_REQUEST_ERROR_CODE]

/-- Witness for C7: a backend rejecting with 4001 resolves silently after
one switch request, and a backend failing with code -32000 throws the
problem-switching error. -/
theorem switchChain_user_rejected_witness :
    Web3EvmProvider.switchChain ⟨.error 4001, .ok ()⟩
        ⟨"https://scan", "Polygon", "https://rpc", some 137, "MATIC"⟩ =
      (.ok (), [.switchEthereumChain (Web3EvmProvider.toHex 137)]) ∧
    Web3EvmProvider.switchChain ⟨.error (-32000), .ok ()⟩
        ⟨"https://scan", "Polygon", "https://rpc", some 137, "MATIC"⟩ =
      (.error "There was a problem switching the network",
        [.switchEthereumChain (Web3EvmProvider.toHex 137)]) :=
  ⟨(switchChain_user_rejected ⟨.error 4001, .ok ()⟩
      ⟨"https://scan", "Polygon", "https://rpc", some 137, "MATIC"⟩ 137 4001
      rfl rfl).1 rfl,
   (switchChain_user_rejected ⟨.error (-32000), .ok ()⟩
      ⟨"https://scan", "Polygon", "https://rpc", some 137, "MATIC"⟩ 137
      (-32000) rfl rfl).2 (by decide) (by decide)⟩

/-! ## Web3EvmProvider: account mapping and transact

Embedding of `Web3EvmProvider.mapToAccounts` / `getChain` / `getAccounts` /
`transact` (`web3EvmProvider.ts`, lines 65-91 and 192-210).  The backend's
answers (`window.ethereum.chainId`, `web3.version.getNetwork`,
`web3.eth.getAccounts`, `web3.eth.sendTransaction`) are supplied as
arguments. -/

/-- Chain identifiers.  Modelled from the spec: an enum-like value
identifying a network, partitioned into disjoint MAINNET and TESTNET sets
with a mainnet-testnet correspondence (the actual enum lives in the
`constants` module, outside the provided sources). -/
inductive ChainIdentifier where
  | ETHEREUM
  | MATIC
  | RINKEBY
  | MUMBAI
deriving DecidableEq, Repr

/-- The `AccountKey` record of `lib/chain/chain`: minimal `{address, chain}`
identity of an on-chain account. -/
structure AccountKey where
  address : String
  chain : ChainIdentifier
deriving DecidableEq, Repr

/-- Modelled from the spec: `CHAIN_IDENTIFIER_BY_NETWORK_ID` from
`lib/chain/networks/ethereum` (outside the provided sources), a partial map
from raw network ids to chain identifiers; unknown ids map to nothing. -/
def CHAIN_IDENTIFIER_BY_NETWORK_ID : Nat → Option ChainIdentifier
  | 1 => some .ETHEREUM
  | 4 => some .RINKEBY
  | 137 => some .MATIC
  | 80001 => some .MUMBAI
  | _ => none

namespace Web3EvmProvider

/-- Embedding of `Web3EvmProvider.getChain`: look up
`window.ethereum.chainId` falling back to the backend's network id; a
thrown backend error is caught and yields `none`, as does an id outside the
known table. -/
def getChain (windowEthereumChainId : Option Nat)
    (getNetwork : Except String Nat) : Option ChainIdentifier :=
  match getNetwork with
  | .error _ => none
  | .ok networkId =>
    CHAIN_IDENTIFIER_BY_NETWORK_ID (windowEthereumChainId.getD networkId)

/-- Embedding of `Web3EvmProvider.mapToAccounts`: tag each address,
lower-cased, with the resolved chain; an unresolvable chain yields the
empty list. -/
def mapToAccounts (windowEthereumChainId : Option Nat)
    (getNetwork : Except String Nat) (addresses : List String) :
    List AccountKey :=
  match getChain windowEthereumChainId getNetwork with
  | some chain => addresses.map (fun a => { address := jsToLowerCase a, chain })
  | none => []

/-- Embedding of `Web3EvmProvider.getAccounts`: map the backend's reported
addresses through `mapToAccounts`. -/
def getAccounts (windowEthereumChainId : Option Nat)
    (getNetwork : Except String Nat) (backendAddresses : List String) :
    List AccountKey :=
  mapToAccounts windowEthereumChainId getNetwork backendAddresses

end Web3EvmProvider

/-- The `Transaction` record of `lib/chain/provider` restricted to the
fields `transact` reads, with a present `source`. -/
structure Transaction where
  source : String
  destination : Option String
  value : Option Nat
  data : Option String
deriving DecidableEq, Repr

namespace Web3EvmProvider

/-- Embedding of `Web3EvmProvider.transact`: throw the account-not-connected
error unless some connected account's address is strictly equal (`===`) to
the transaction's source, else forward to `web3.eth.sendTransaction`
(supplied as `sendTransaction`, returning the transaction id). -/
def transact (windowEthereumChainId : Option Nat)
    (getNetwork : Except String Nat) (backendAddresses : List String)
    (sendTransaction :
      String → Option String → Option Nat → Option String → String)
    (tx : Transaction) : Except String String :=
  let accounts := getAccounts windowEthereumChainId getNetwork backendAddresses
  if accounts.any (fun a => a.address == tx.source) then
    .ok (sendTransaction tx.source tx.destination tx.value tx.data)
  else
    .error ("Not connected to account " ++ tx.source)

end Web3EvmProvider


/-! ## Theorems: C9, C10 -/

/-- The connected-account check of `transact` over the lower-cased account
list reduces to membership of the source in the lower-cased addresses. -/
theorem mapped_any_source_eq (chain : ChainIdentifier) (addrs : List String)
    (src : String) :
    ((addrs.map (fun a =>
        ({ address := jsToLowerCase a, chain } : AccountKey))).any
      (fun a => a.address == src)) =
    decide (src ∈ addrs.map jsToLowerCase) := by
  induction addrs with
  | nil => simp
  | cons a as ih =>
    simp only [List.map_cons, List.any_cons, ih, List.mem_cons]
    by_cases h : jsToLowerCase a = src
    · simp [h]
    · have h1 : (jsToLowerCase a == src) = false := beq_eq_false_iff_ne.mpr h
      have h2 : ¬(src = jsToLowerCase a) := fun hEq => h hEq.symm
      simp [h1, h2]

/-- C9 counterexample: the backend reports the connected address `"0xAB"`
and the transaction's source is the very same string `"0xAB"`, yet
`transact` throws the account-not-connected error, because the connected
addresses are lower-cased before the strict comparison.  A connected
address supplied in non-lowercase form is rejected, not accepted. -/
theorem transact_rejects_uppercase_source :
    Web3EvmProvider.transact (some 1) (.ok 1) ["0xAB"]
        (fun s _ _ _ => s ++ ":txid") ⟨"0xAB", none, none, none⟩ =
      .error "Not connected to account 0xAB" := by
  rfl

/-- C9 amended: `transact` forwards the transaction exactly when the chain
resolves and the source is strictly (case-sensitively) equal to the
lower-cased form of some backend-reported address; in every other case,
including a connected address supplied in a different letter case, it
throws the account-not-connected error. -/
theorem transact_source_check (windowEthereumChainId : Option Nat)
    (getNetwork : Except String Nat) (backendAddresses : List String)
    (sendTransaction :
      String → Option String → Option Nat → Option String → String)
    (tx : Transaction) :
    Web3EvmProvider.transact windowEthereumChainId getNetwork
        backendAddresses sendTransaction tx =
      if (Web3EvmProvider.getChain windowEthereumChainId getNetwork).isSome ∧
          tx.source ∈ backendAddresses.map jsToLowerCase then
        .ok (sendTransaction tx.source tx.destination tx.value tx.data)
      else
        .error ("Not connected to account " ++ tx.source) := by
  unfold Web3EvmProvider.transact Web3EvmProvider.getAccounts
    Web3EvmProvider.mapToAccounts
  cases hc : Web3EvmProvider.getChain windowEthereumChainId getNetwork with
  | none => simp
  | some chain =>
    simp only [mapped_any_source_eq, Option.isSome_some, true_and]
    by_cases hmem : tx.source ∈ backendAddresses.map jsToLowerCase <;>
      simp [hmem]

/-- C10: when the current network cannot be mapped to a known chain
identifier, `getAccounts` resolves to the empty list for every backend
address list (its return type shows it cannot throw). -/
theorem getAccounts_unknown_network (windowEthereumChainId : Option Nat)
    (getNetwork : Except String Nat) (backendAddresses : List String)
    (h : Web3EvmProvider.getChain windowEthereumChainId getNetwork = none) :
    Web3EvmProvider.getAccounts windowEthereumChainId getNetwork
      backendAddresses = [] := by
  unfold Web3EvmProvider.getAccounts Web3EvmProvider.mapToAccounts
  rw [h]

/-- Witness for C10: network id 999 is unknown, so the backend's reported
addresses are all hidden. -/
theorem getAccounts_unknown_network_witness :
    Web3EvmProvider.getChain none (.ok 999) = none ∧
    Web3EvmProvider.getAccounts none (.ok 999) ["0xAB", "0xcd"] = [] :=
  ⟨rfl, getAccounts_unknown_network none (.ok 999) ["0xAB", "0xcd"] rfl⟩

/-! ## Wallet: registry, persistence, active account

Embedding of the `Wallet` class (`wallet.ts`).  JavaScript object identity
matters here: `Wallet.delete` compares the active account to the registry
entry with `===`.  An `Account` therefore carries a `ref` tag modelling its
object reference — every separately created object gets a distinct tag, so
structural equality of these values coincides with JavaScript `===`. -/

/-- A registry `Account`, reduced to the address plus its object-identity
tag (the profile metadata carried by the real record plays no role in the
claims). -/
structure Account where
  ref : Nat
  address : String
deriving DecidableEq, Repr

/-- An account as it appears in the persisted JSON blob: data only, no
object identity. -/
structure SavedAccount where
  address : String
deriving DecidableEq, Repr

/-- The `WalletData` blob persisted by the wallet cookie
(`wallet.ts`, lines 46-50). -/
structure WalletData where
  accounts : List SavedAccount
  activeAccount : Option SavedAccount
  installedProviderNames : List String
deriving DecidableEq, Repr

namespace Wallet

/-- Embedding of `Wallet.toHash`: the JSON string of the lower-cased
address object. -/
def toHash (address : String) : String :=
  "\x7b\"address\":\"" ++ jsToLowerCase address ++ "\"\x7d"

end Wallet

/-- Modelled from the spec: `OrderedSet` from `lib/helpers/array` (outside
the provided sources) — an ordered, deduplicated account collection keyed
here by `Wallet.toHash` of the address; `add` upserts in place preserving
position, else appends; `delete` removes by key; immutable updates. -/
structure OrderedSet where
  elements : List Account
deriving DecidableEq, Repr

/-- The key function the wallet passes to its `OrderedSet`. -/
def OrderedSet.getKey (a : Account) : String := Wallet.toHash a.address

/-- Lookup by key. -/
def OrderedSet.find (s : OrderedSet) (k : String) : Option Account :=
  s.elements.find? (fun a => OrderedSet.getKey a == k)

/-- Upsert by key, preserving the original position of an existing key. -/
def OrderedSet.add (s : OrderedSet) (a : Account) : OrderedSet :=
  if s.elements.any (fun b => OrderedSet.getKey b == OrderedSet.getKey a) then
    ⟨s.elements.map
      (fun b => if OrderedSet.getKey b == OrderedSet.getKey a then a else b)⟩
  else ⟨s.elements ++ [a]⟩

/-- Removal by key. -/
def OrderedSet.delete (s : OrderedSet) (k : String) : OrderedSet :=
  ⟨s.elements.filter (fun a => OrderedSet.getKey a != k)⟩

/-- Empty the collection. -/
def OrderedSet.clear (_ : OrderedSet) : OrderedSet := ⟨[]⟩

/-- JavaScript `Set.prototype.add` on a duplicate-free list. -/
def setAdd (l : List String) (x : String) : List String :=
  if l.contains x then l else l ++ [x]

/-- JavaScript `Set.prototype.delete` on a duplicate-free list. -/
def setDelete (l : List String) (x : String) : List String :=
  l.filter (fun y => y != x)

/-- The mutable state of one `Wallet` instance, together with the persisted
cookie record (`none` = no record stored). -/
structure WalletSt where
  _accounts : OrderedSet
  activeAccount : Option Account
  installedProviderNames : List String
  cookie : Option WalletData
deriving DecidableEq, Repr

namespace Wallet

/-- JSON serialization of one account: the data without object identity. -/
def serializeAccount (a : Account) : SavedAccount := ⟨a.address⟩

/-- The blob `Wallet.save` would write for this state: `some` blob when any
of the three fields is non-empty, `none` (delete the record) otherwise
(`wallet.ts`, lines 197-216). -/
def saveBlob (w : WalletSt) : Option WalletData :=
  if w.activeAccount.isSome ∨ w._accounts.elements.length > 0 ∨
      w.installedProviderNames.length > 0 then
    some ⟨w._accounts.elements.map serializeAccount,
      w.activeAccount.map serializeAccount, w.installedProviderNames⟩
  else
    none

/-- Embedding of `Wallet.save`: write the blob to the cookie, or remove the
cookie when all three fields are empty. -/
def save (w : WalletSt) : WalletSt := { w with cookie := saveBlob w }

/-- Embedding of `Wallet.load` (`wallet.ts`, lines 218-223), composed with
the cookie read.  Modelled from the spec for the `Cookie` collaborator
(outside the provided sources): the blob is stored as JSON, so reading it
back re-creates every object; `JSON.parse` never shares references, so the
parsed `activeAccount` object is distinct from the parsed entry of
`accounts` even when they were the same object at save time.  Freshness is
modelled by tagging the parsed account list with its indices and the
separately parsed active account with the first tag past the end. -/
def load (w : WalletSt) : WalletSt :=
  match w.cookie with
  | some data =>
    { w with
      _accounts := ⟨data.accounts.enum.map (fun p => ⟨p.1, p.2.address⟩)⟩,
      activeAccount :=
        data.activeAccount.map (fun sa => ⟨data.accounts.length, sa.address⟩),
      installedProviderNames := data.installedProviderNames }
  | none =>
    { w with
      _accounts := ⟨[]⟩,
      activeAccount := none,
      installedProviderNames := [] }

/-- Embedding of `Wallet.find`: registry lookup by hashed address. -/
def find (w : WalletSt) (address : String) : Option Account :=
  w._accounts.find (Wallet.toHash address)

/-- Embedding of `Wallet.delete` (`wallet.ts`, lines 285-294): remove the
entry for the key's address; unset the active account when it is `===` the
removed registry entry; persist.  No-op when the key is absent. -/
def delete (w : WalletSt) (key : AccountKey) : WalletSt :=
  match find w key.address with
  | none => w
  | some account =>
    let w1 := { w with _accounts := w._accounts.delete (toHash key.address) }
    let w2 := if w1.activeAccount = some account then
        { w1 with activeAccount := none }
      else w1
    save w2

/-- Embedding of `Wallet.clear` (`wallet.ts`, lines 296-301): unset the
active account, empty the registry and the installed-provider set,
persist. -/
def clear (w : WalletSt) : WalletSt :=
  save { w with
    activeAccount := none,
    _accounts := w._accounts.clear,
    installedProviderNames := [] }

end Wallet

/-! ## Wallet: account registration and provider install -/

/-- Modelled from the spec: the testnet partition of `ChainIdentifier`
(from the `constants` module, outside the provided sources). -/
def TESTNET_CHAIN_IDENTIFIERS : List ChainIdentifier := [.RINKEBY, .MUMBAI]

/-- Modelled from the spec: the mainnet partition of `ChainIdentifier`. -/
def MAINNET_CHAIN_IDENTIFIERS : List ChainIdentifier := [.ETHEREUM, .MATIC]

/-- Modelled from the spec: the mainnet-to-testnet correspondence table. -/
def MAINNET_TO_TESTNET_CHAIN_IDENTIFIERS :
    ChainIdentifier → Option ChainIdentifier
  | .ETHEREUM => some .RINKEBY
  | .MATIC => some .MUMBAI
  | _ => none

/-- Modelled from the spec: the testnet-to-mainnet correspondence table. -/
def TESTNET_TO_MAINNET_CHAIN_IDENTIFIERS :
    ChainIdentifier → Option ChainIdentifier
  | .RINKEBY => some .ETHEREUM
  | .MUMBAI => some .MATIC
  | _ => none

/-- Modelled from the spec: display names of the chains. -/
def CHAIN_IDENTIFIERS_TO_NAMES : ChainIdentifier → String
  | .ETHEREUM => "Ethereum"
  | .MATIC => "Polygon"
  | .RINKEBY => "Rinkeby"
  | .MUMBAI => "Mumbai"

/-- The remote account source (`Wallet.getAccount`, a GraphQL fetch):
given an address it may throw, return no account, or return a freshly
created account object. -/
def FetchAccount : Type := String → Except String (Option Account)

namespace Wallet

/-- Embedding of `Wallet.add` (`wallet.ts`, lines 265-283): silently skip a
key whose chain is on the wrong side of the testnet flag; return the cached
account when the key is registered; otherwise fetch, register, adopt as
active when no active account exists, and persist.  The fetch's exception
propagates. -/
def add (isTestnet : Bool) (fetch : FetchAccount) (w : WalletSt)
    (key : AccountKey) : WalletSt × Except String (Option Account) :=
  if isTestnet ≠ TESTNET_CHAIN_IDENTIFIERS.contains key.chain then
    (w, .ok none)
  else
    match find w key.address with
    | some account => (w, .ok (some account))
    | none =>
      match fetch key.address with
      | .error e => (w, .error e)
      | .ok none => (w, .ok none)
      | .ok (some newAccount) =>
        let w1 := { w with _accounts := w._accounts.add newAccount }
        let w2 := if w1.activeAccount = none then
            { w1 with activeAccount := some newAccount }
          else w1
        (save w2, .ok (some newAccount))

/-- Embedding of `Wallet.select` (`wallet.ts`, lines 256-263): `add` the
key, and when an account results make it active and persist. -/
def select (isTestnet : Bool) (fetch : FetchAccount) (w : WalletSt)
    (key : AccountKey) : WalletSt × Except String (Option Account) :=
  match add isTestnet fetch w key with
  | (w1, .error e) => (w1, .error e)
  | (w1, .ok none) => (w1, .ok none)
  | (w1, .ok (some account)) =>
    (save { w1 with activeAccount := some account }, .ok (some account))

/-- Registering every reported account in order, as the
`await Promise.all(accounts.map(this.add))` step does; the first exception
propagates. -/
def addAll (isTestnet : Bool) (fetch : FetchAccount) (w : WalletSt) :
    List AccountKey → WalletSt × Except String Unit
  | [] => (w, .ok ())
  | key :: keys =>
    match add isTestnet fetch w key with
    | (w1, .error e) => (w1, .error e)
    | (w1, .ok _) => addAll isTestnet fetch w1 keys

end Wallet

/-- What the backend of one provider does during install: the result of
`connect()` and of `getAccounts()`. -/
structure ProviderBehavior where
  connectResult : Except String Unit
  getAccountsResult : Except String (List AccountKey)

/-- A wallet together with the chain module's registry of live provider
instances.  Modelled from the spec for the `chain` collaborator (outside
the provided sources): `chain.addProvider(name)` registers an instance
under `name`, `chain.deleteProvider(name)` releases it. -/
structure InstallSt where
  wallet : WalletSt
  chainProviders : List String

namespace Wallet

/-- The body of `Wallet.install`'s `try` block (`wallet.ts`, lines
338-375): connect, get accounts, stop silently when none, throw the
connect-to-the-counterpart-network guidance error on a partition mismatch,
select the first in-network account, register all reported accounts, mark
the provider installed and persist.  State mutated before a throw is kept,
as JavaScript field mutation keeps it; the unawaited `this.select(...)` is
run sequentially, which leaves the same final state because a fetch
exception it would leak resurfaces deterministically at the `add` of the
same key. -/
def installBody (isTestnet : Bool) (fetch : FetchAccount)
    (pb : ProviderBehavior) (name : String) (st : InstallSt) :
    InstallSt × Except String Unit :=
  match pb.connectResult with
  | .error e => (st, .error e)
  | .ok _ =>
    match pb.getAccountsResult with
    | .error e => (st, .error e)
    | .ok accounts =>
      if accounts.length = 0 then (st, .ok ())
      else
        let connectedChain := accounts.head?.map (·.chain)
        let accountsInNetwork := accounts.filter
          (fun a => isTestnet == TESTNET_CHAIN_IDENTIFIERS.contains a.chain)
        let guidanceError : Option String :=
          match (if accounts.length ≠ accountsInNetwork.length then
              connectedChain else none) with
          | none => none
          | some connected =>
            let appropriateChain :=
              if MAINNET_CHAIN_IDENTIFIERS.contains connected then
                MAINNET_TO_TESTNET_CHAIN_IDENTIFIERS connected
              else
                TESTNET_TO_MAINNET_CHAIN_IDENTIFIERS connected
            appropriateChain.map (fun c =>
              "Please connect to the " ++ CHAIN_IDENTIFIERS_TO_NAMES c ++
                " network.")
        match guidanceError with
        | some msg => (st, .error msg)
        | none =>
          let selectStep :=
            match accountsInNetwork.head? with
            | some firstAccount => select isTestnet fetch st.wallet firstAccount
            | none => (st.wallet, .ok none)
          match selectStep with
          | (w1, .error e) => ({ st with wallet := w1 }, .error e)
          | (w1, .ok _) =>
            match addAll isTestnet fetch w1 accounts with
            | (w2, .error e) => ({ st with wallet := w2 }, .error e)
            | (w2, .ok _) =>
              let newNames := setAdd w2.installedProviderNames name
              let w3 := { w2 with installedProviderNames := newNames }
              ({ st with wallet := save w3 }, .ok ())

/-- Embedding of `Wallet.install` (`wallet.ts`, lines 332-382): when the
factory yields no provider, return silently; otherwise register the
instance in the chain module and run the body; on any exception release the
instance, drop `name` from the installed set, persist, and rethrow. -/
def install (isTestnet : Bool) (fetch : FetchAccount)
    (providerAvailable : Bool) (pb : ProviderBehavior) (st : InstallSt)
    (name : String) : InstallSt × Except String Unit :=
  if !providerAvailable then (st, .ok ())
  else
    let st1 : InstallSt :=
      { st with chainProviders := setAdd st.chainProviders name }
    match installBody isTestnet fetch pb name st1 with
    | (st2, .ok _) => (st2, .ok ())
    | (st2, .error e) =>
      let prunedNames := setDelete st2.wallet.installedProviderNames name
      let w := { st2.wallet with installedProviderNames := prunedNames }
      ({ st2 with
          wallet := save w,
          chainProviders := setDelete st2.chainProviders name },
        .error e)

end Wallet

/-! ## Theorems: C8, C4, C5 -/

/-- C8: from every wallet state, `clear()` leaves the registry empty, the
active account unset and the installed-provider set empty, and removes the
persisted record (`cookie = none`, the save path deletes rather than writes
when all three fields are empty). -/
theorem clear_empties_state_and_deletes_cookie (w : WalletSt) :
    (Wallet.clear w)._accounts.elements = [] ∧
    (Wallet.clear w).activeAccount = none ∧
    (Wallet.clear w).installedProviderNames = [] ∧
    (Wallet.clear w).cookie = none := by
  unfold Wallet.clear Wallet.save Wallet.saveBlob OrderedSet.clear
  simp

/-- Concrete evaluation of `clear` at a fully populated state: all three
fields emptied and the cookie removed rather than overwritten. -/
theorem clear_concrete_eval :
    Wallet.clear
        ⟨⟨[⟨0, "0xAbC"⟩]⟩, some ⟨0, "0xAbC"⟩, ["MetaMask"],
          some ⟨[⟨"0xAbC"⟩], some ⟨"0xAbC"⟩, ["MetaMask"]⟩⟩ =
      ⟨⟨[]⟩, none, [], none⟩ := by
  rfl

/-- A session as it exists in memory right after a successful connect: the
active account is the very registry object (`===` holds, refs equal). -/
def sessionSt : WalletSt :=
  { _accounts := ⟨[⟨0, "0xAbC"⟩]⟩,
    activeAccount := some ⟨0, "0xAbC"⟩,
    installedProviderNames := ["MetaMask"],
    cookie := none }

/-- C4 failing input: persist `sessionSt`, read the blob back in a fresh
wallet (as the constructor's `load` does), then `delete` the active
account's key.  The JSON round-trip broke reference identity, so the `===`
comparison in `delete` misses: the registry entry is removed and the lookup
of the active account's key fails, while `activeAccount` stays set — the
invariant the claim states is violated on this reachable state. -/
theorem delete_after_load_breaks_active_invariant :
    (Wallet.delete
        (Wallet.load
          ⟨⟨[]⟩, none, [], (Wallet.save sessionSt).cookie⟩)
        ⟨"0xAbC", .ETHEREUM⟩).activeAccount = some ⟨1, "0xAbC"⟩ ∧
    (Wallet.delete
        (Wallet.load
          ⟨⟨[]⟩, none, [], (Wallet.save sessionSt).cookie⟩)
        ⟨"0xAbC", .ETHEREUM⟩)._accounts.elements = [] ∧
    Wallet.find
        (Wallet.delete
          (Wallet.load
            ⟨⟨[]⟩, none, [], (Wallet.save sessionSt).cookie⟩)
          ⟨"0xAbC", .ETHEREUM⟩) "0xAbC" = none := by
  refine ⟨rfl, rfl, rfl⟩

/-- JavaScript `Set.delete` really removes the element: the list model of a
set never reports a deleted name as contained. -/
theorem setDelete_contains_self (l : List String) (x : String) :
    (setDelete l x).contains x = false := by
  induction l with
  | nil => rfl
  | cons a as ih =>
    unfold setDelete at ih ⊢
    by_cases h : a = x
    · simp [List.filter_cons, h, ih]
    · simp only [List.filter_cons]
      have hb : (a != x) = true := by simp [h]
      rw [hb]
      simp only [if_pos rfl]
      have hbeq : (a == x) = false := by simp [h]
      have h2 : ¬x = a := fun hEq => h hEq.symm
      simp [List.contains, List.elem_cons, hbeq, ih, h2]

/-- C5: whenever the `try` block of `install(name)` — connect, getAccounts,
or the account-registration steps — throws an exception `e`, `install`
rethrows exactly `e`, the final state's installed-provider set does not
contain `name`, the provider instance registered for `name` has been
released from the chain module, and the persisted cookie agrees with the
rolled-back wallet (the rollback ends in `save`). -/
theorem install_rollback_on_throw (isTestnet : Bool) (fetch : FetchAccount)
    (pb : ProviderBehavior) (st : InstallSt) (name : String) (e : String)
    (hBody : (Wallet.installBody isTestnet fetch pb name
        { st with chainProviders := setAdd st.chainProviders name }).2 =
      .error e) :
    (Wallet.install isTestnet fetch true pb st name).2 = .error e ∧
    ((Wallet.install isTestnet fetch true pb st
        name).1.wallet.installedProviderNames.contains name = false) ∧
    ((Wallet.install isTestnet fetch true pb st
        name).1.chainProviders.contains name = false) ∧
    ((Wallet.install isTestnet fetch true pb st name).1.wallet.cookie =
      Wallet.saveBlob (Wallet.install isTestnet fetch true pb st
        name).1.wallet) := by
  unfold Wallet.install
  cases hb : Wallet.installBody isTestnet fetch pb name
      { st with chainProviders := setAdd st.chainProviders name } with
  | mk st2 r =>
    rw [hb] at hBody
    simp only at hBody
    subst hBody
    simp only [Bool.not_true, if_neg (by decide : ¬false = true), hb]
    refine ⟨trivial, ?_, ?_, ?_⟩
    · exact setDelete_contains_self _ name
    · exact setDelete_contains_self _ name
    · rfl

/-- Witness for C5: a backend whose `getAccounts` throws leaves the wallet
with no trace of the provider and the original exception surfaced. -/
theorem install_rollback_on_throw_witness :
    (Wallet.install false (fun _ => .ok none) true
        ⟨.ok (), .error "getAccounts failed"⟩
        ⟨⟨⟨[]⟩, none, [], none⟩, []⟩ "MetaMask").2 =
      .error "getAccounts failed" ∧
    ((Wallet.install false (fun _ => .ok none) true
        ⟨.ok (), .error "getAccounts failed"⟩
        ⟨⟨⟨[]⟩, none, [], none⟩, []⟩
        "MetaMask").1.wallet.installedProviderNames.contains "MetaMask" =
      false) ∧
    ((Wallet.install false (fun _ => .ok none) true
        ⟨.ok (), .error "getAccounts failed"⟩
        ⟨⟨⟨[]⟩, none, [], none⟩, []⟩
        "MetaMask").1.chainProviders.contains "MetaMask" = false) := by
  have h := install_rollback_on_throw false (fun _ => .ok none)
    ⟨.ok (), .error "getAccounts failed"⟩ ⟨⟨⟨[]⟩, none, [], none⟩, []⟩
    "MetaMask" "getAccounts failed" rfl
  exact ⟨h.1, h.2.1, h.2.2.1⟩
